import Mathlib

/-!
Verification of the vdata-app query pipeline: a shallow embedding of the
query guard (`validateQuery`, the LIMIT-injection rewrite in `executeQuery`)
and of the result normalizer (`formatDatabaseResult`), with theorems
settling the specification claims about them.

Conventions of the embedding:
* JavaScript strings are Lean `String`s.  The string primitives used by the
  source (`trim`, `toUpperCase`, `includes`, `startsWith`, `endsWith`,
  `slice`) are embedded as executable list-of-characters operations
  (`jsTrim`, `jsToUpper`, `containsStr`, `jsStartsWith`, `jsEndsWith`,
  `List.take`), so every concrete instance evaluates inside the kernel.
* JavaScript numbers appearing in this pipeline are integer row counts and
  limits, modelled by `Nat`/`Int`.
* JavaScript truthiness is modelled explicitly at each use site
  (`0`, `""`, `null`, `undefined` are falsy; every array is truthy).
* A thrown exception is modelled as `Except.error`; `try`/`catch` is the
  corresponding recovery on `Except`.
-/

namespace VdataApp

/-- The four whitespace characters recognised by `Char.isWhitespace`,
covering the whitespace appearing in SQL text handled by `trim`. -/
def jsWhitespace (c : Char) : Bool :=
  c = ' ' || c = '\t' || c = '\n' || c = '\r'

/-- Embedding of `String.prototype.trim`: drop leading and trailing
whitespace. -/
def jsTrim (s : String) : String :=
  String.mk (((s.data.dropWhile jsWhitespace).reverse.dropWhile jsWhitespace).reverse)

/-- Embedding of `String.prototype.toUpperCase` (ASCII range). -/
def jsToUpper (s : String) : String :=
  String.mk (s.data.map Char.toUpper)

/-- Embedding of `String.prototype.startsWith`. -/
def jsStartsWith (s pat : String) : Bool :=
  pat.data.isPrefixOf s.data

/-- Embedding of `String.prototype.endsWith`. -/
def jsEndsWith (s pat : String) : Bool :=
  pat.data.reverse.isPrefixOf s.data.reverse

/-- `l₁` occurs as a contiguous run inside `l₂`. -/
def listInfix (pat : List Char) : List Char → Bool
  | [] => pat.isEmpty
  | c :: tl => pat.isPrefixOf (c :: tl) || listInfix pat tl

/-- Substring containment, the embedding of JavaScript
`String.prototype.includes`. -/
def containsStr (s pat : String) : Bool :=
  listInfix pat.data s.data

/-- The denylist scanned by `validateQuery`, in source order. -/
def dangerousKeywords : List String :=
  ["DROP", "DELETE", "UPDATE", "INSERT", "ALTER", "CREATE", "TRUNCATE"]

/-- Verdict shape of `validateQuery`: `{ valid: boolean; error?: string }`. -/
structure ValidationResult where
  valid : Bool
  error : Option String
deriving Repr, DecidableEq

/-- Embedding of `validateQuery` (database.ts).  The source trims and
upper-cases the input, rejects the empty string, then rejects text that does
not start with `SELECT`, and finally scans the denylist in order, reporting
the first keyword contained anywhere in the text. -/
def validateQuery (query : String) : ValidationResult :=
  let trimmed := jsToUpper (jsTrim query)
  if trimmed = "" then
    { valid := false, error := some "Empty or invalid query" }
  else if jsStartsWith trimmed "SELECT" then
    match dangerousKeywords.find? (fun k => containsStr trimmed k) with
    | some keyword => { valid := false, error := some ("Dangerous keyword: " ++ keyword) }
    | none => { valid := true, error := none }
  else
    { valid := false, error := some "Only SELECT statements allowed" }

/-- `const MAX_ROWS = 1000` (database.ts). -/
def MAX_ROWS : Nat := 1000

/-- `const actualLimit = limit ? Math.min(limit, MAX_ROWS) : MAX_ROWS`.
JavaScript truthiness makes a requested limit of `0` fall back to
`MAX_ROWS`, exactly like an absent limit. -/
def actualLimit : Option Nat → Nat
  | some l => if l = 0 then MAX_ROWS else min l MAX_ROWS
  | none => MAX_ROWS

/-- `finalQuery.replace(/;$/, '')`: the regex matches a single semicolon at
the very end of the string, so the rewrite removes at most one trailing
semicolon. -/
def stripTrailingSemicolon (s : String) : String :=
  if jsEndsWith s ";" then String.mk s.data.dropLast else s

/-- The LIMIT-injection rewrite inside `executeQuery` (database.ts):
the dispatched text is the trimmed query, and when no `LIMIT` substring is
present in its upper-casing, ` LIMIT <actualLimit>` is appended to the
semicolon-stripped trimmed text. -/
def finalQuery (query : String) (limit : Option Nat) : String :=
  let fq := jsTrim query
  if containsStr (jsToUpper fq) "LIMIT" then fq
  else stripTrailingSemicolon fq ++ " LIMIT " ++ toString (actualLimit limit)

/-- The first whitespace-delimited token of a string. -/
def firstToken (s : String) : String :=
  String.mk (s.data.takeWhile (fun c => jsWhitespace c = false))

/-- Claim C1 counterexample: the guard tests the *prefix* `SELECT`, not the
first token.  `"SELECTED 1"` has first token `SELECTED`, which is not
`SELECT`, so the claim's trichotomy demands an invalid verdict with reason
"Only SELECT statements allowed"; the code accepts the query. -/
theorem validateQuery_first_token_counterexample :
    validateQuery "SELECTED 1" = { valid := true, error := none } ∧
    firstToken (jsToUpper (jsTrim "SELECTED 1")) = "SELECTED" := by
  constructor <;> decide

/-- Claim C1 (amended): trichotomy of `validateQuery` on the trimmed
upper-cased text `t`: empty `t` is rejected with "Empty or invalid query";
a nonempty `t` that does not start with the prefix `SELECT` is rejected
with "Only SELECT statements allowed"; a `t` starting with `SELECT` and
containing one of the seven denylisted keywords as a substring is rejected
with a reason naming the offending keyword; otherwise the query is valid. -/
theorem validateQuery_trichotomy (query : String) :
    (jsToUpper (jsTrim query) = "" →
      validateQuery query = { valid := false, error := some "Empty or invalid query" }) ∧
    (jsToUpper (jsTrim query) ≠ "" →
      jsStartsWith (jsToUpper (jsTrim query)) "SELECT" = false →
      validateQuery query = { valid := false, error := some "Only SELECT statements allowed" }) ∧
    (jsStartsWith (jsToUpper (jsTrim query)) "SELECT" = true →
      (∀ k ∈ dangerousKeywords, containsStr (jsToUpper (jsTrim query)) k = false) →
      validateQuery query = { valid := true, error := none }) ∧
    (jsStartsWith (jsToUpper (jsTrim query)) "SELECT" = true →
      ∀ k ∈ dangerousKeywords, containsStr (jsToUpper (jsTrim query)) k = true →
      ∃ k', k' ∈ dangerousKeywords ∧ containsStr (jsToUpper (jsTrim query)) k' = true ∧
        validateQuery query =
          { valid := false, error := some ("Dangerous keyword: " ++ k') }) := by
  have hne_of_sw : jsStartsWith (jsToUpper (jsTrim query)) "SELECT" = true →
      jsToUpper (jsTrim query) ≠ "" := by
    intro hsw h
    rw [h] at hsw
    exact absurd hsw (by decide)
  refine ⟨?_, ?_, ?_, ?_⟩
  · intro h
    simp [validateQuery, h]
  · intro hne hsw
    simp [validateQuery, hne, hsw]
  · intro hsw hnone
    have hfind :
        dangerousKeywords.find? (fun k => containsStr (jsToUpper (jsTrim query)) k) = none := by
      rw [List.find?_eq_none]
      intro k hk
      simp [hnone k hk]
    simp [validateQuery, hne_of_sw hsw, hsw, hfind]
  · intro hsw k hk hcontains
    have hex :
        (dangerousKeywords.find? (fun k => containsStr (jsToUpper (jsTrim query)) k)).isSome
          = true := by
      rw [List.find?_isSome]
      exact ⟨k, hk, hcontains⟩
    obtain ⟨k', hfind⟩ := Option.isSome_iff_exists.mp hex
    exact ⟨k', List.mem_of_find?_eq_some hfind, List.find?_some hfind,
      by simp [validateQuery, hne_of_sw hsw, hsw, hfind]⟩

/-- Witness for the amended claim C1, instantiating every branch of the
trichotomy at a concrete input. -/
theorem validateQuery_trichotomy_witness :
    validateQuery "" = { valid := false, error := some "Empty or invalid query" } ∧
    validateQuery "drop table t" =
      { valid := false, error := some "Only SELECT statements allowed" } ∧
    validateQuery "SELECT 1" = { valid := true, error := none } ∧
    ∃ k', k' ∈ dangerousKeywords ∧
      containsStr (jsToUpper (jsTrim "SELECT * FROM t; DROP TABLE t")) k' = true ∧
      validateQuery "SELECT * FROM t; DROP TABLE t" =
        { valid := false, error := some ("Dangerous keyword: " ++ k') } :=
  ⟨(validateQuery_trichotomy "").1 (by decide),
   (validateQuery_trichotomy "drop table t").2.1 (by decide) (by decide),
   (validateQuery_trichotomy "SELECT 1").2.2.1 (by decide) (by decide),
   (validateQuery_trichotomy "SELECT * FROM t; DROP TABLE t").2.2.2
     (by decide) "DROP" (by decide) (by decide)⟩

/-- Claim C2 counterexample: at a requested limit of 0 the claim's cap
formula gives `min(0, 1000) = 0`, so the claim demands ` LIMIT 0`; the
code's truthiness test `limit ? Math.min(limit, MAX_ROWS) : MAX_ROWS`
treats the falsy 0 like an absent limit and appends ` LIMIT 1000`. -/
theorem executeQuery_limit_rewrite_counterexample :
    finalQuery "SELECT * FROM t" (some 0) = "SELECT * FROM t LIMIT 1000" ∧
    min 0 1000 = 0 := by
  exact ⟨rfl, rfl⟩

/-- Claim C2 (amended): for a nonzero requested limit, a query whose trimmed
upper-cased text has no `LIMIT` substring is rewritten by appending
` LIMIT <min(requested, 1000)>`; a (trimmed) query that already contains
`LIMIT` is dispatched unchanged; in particular the two concrete instances
of the claim. -/
theorem executeQuery_limit_rewrite (query : String) (l : Nat) (hl : l ≠ 0) :
    (containsStr (jsToUpper (jsTrim query)) "LIMIT" = false →
      finalQuery query (some l) =
        stripTrailingSemicolon (jsTrim query) ++ " LIMIT " ++ toString (min l 1000)) ∧
    (containsStr (jsToUpper (jsTrim query)) "LIMIT" = true →
      finalQuery query (some l) = jsTrim query) ∧
    jsEndsWith (finalQuery "SELECT * FROM t" (some 5000)) "LIMIT 1000" = true ∧
    finalQuery "SELECT * FROM t LIMIT 10" (some 5000) = "SELECT * FROM t LIMIT 10" := by
  refine ⟨?_, ?_, by decide, by decide⟩
  · intro h
    simp [finalQuery, h, actualLimit, hl, MAX_ROWS]
  · intro h
    simp [finalQuery, h]

/-- Witness for claim C2 at the spec's concrete instances. -/
theorem executeQuery_limit_rewrite_witness :
    finalQuery "SELECT * FROM t" (some 5000) =
      stripTrailingSemicolon (jsTrim "SELECT * FROM t") ++ " LIMIT "
        ++ toString (min 5000 1000) ∧
    finalQuery "SELECT * FROM t LIMIT 10" (some 5000) = jsTrim "SELECT * FROM t LIMIT 10" :=
  ⟨(executeQuery_limit_rewrite "SELECT * FROM t" 5000 (by decide)).1 (by decide),
   (executeQuery_limit_rewrite "SELECT * FROM t LIMIT 10" 5000 (by decide)).2.1 (by decide)⟩

/-- Claim C10: when no `LIMIT` substring is present, the rewrite removes a
single trailing semicolon (if present) from the trimmed query text before
appending ` LIMIT <cap>`. -/
theorem executeQuery_semicolon_strip (query : String) (limit : Option Nat)
    (h : containsStr (jsToUpper (jsTrim query)) "LIMIT" = false) :
    finalQuery query limit =
      (if jsEndsWith (jsTrim query) ";" = true then String.mk (jsTrim query).data.dropLast
        else jsTrim query)
        ++ " LIMIT " ++ toString (actualLimit limit) := by
  simp only [finalQuery, h, Bool.false_eq_true, if_false, stripTrailingSemicolon]

/-- Witness for claim C10: a query ending in ";" is rewritten to
`<query without trailing semicolon> LIMIT <cap>`. -/
theorem executeQuery_semicolon_strip_witness :
    finalQuery "SELECT * FROM t;" (some 5) =
      (if jsEndsWith (jsTrim "SELECT * FROM t;") ";" = true
        then String.mk (jsTrim "SELECT * FROM t;").data.dropLast
        else jsTrim "SELECT * FROM t;")
        ++ " LIMIT " ++ toString (actualLimit (some 5)) :=
  executeQuery_semicolon_strip "SELECT * FROM t;" (some 5) (by decide)

/-! ### Result normalizer: `formatDatabaseResult` (index.ts) -/

/-- JSON-like runtime values: the values produced by `JSON.parse` and the
row objects handled by the normalizer.  JSON numbers are modelled as
integers, since every number this pipeline manipulates is a row count or a
limit. -/
inductive JSValue where
  | null
  | bool (b : Bool)
  | num (n : Int)
  | str (s : String)
  | arr (elems : List JSValue)
  | obj (fields : List (String × JSValue))
deriving Repr

/-- Property read `v.key` on a parsed value: `undefined` (`none`) on
anything except an object carrying the key.  Reading a property of `null`
throws in JavaScript; the embedding routes parsed `null` to the `catch`
branch before any `jsGet`. -/
def jsGet (v : JSValue) (key : String) : Option JSValue :=
  match v with
  | .obj fields => (fields.find? (fun p => p.1 == key)).map (fun p => p.2)
  | _ => none

/-- `typeof x === 'object'`: true for objects, arrays and `null`. -/
def typeofObject : JSValue → Bool
  | .null => true
  | .arr _ => true
  | .obj _ => true
  | _ => false

/-- `Object.keys`: field names of an object, index strings for arrays and
strings, `[]` for numbers and booleans; throws (`none`) on `null`. -/
def objectKeys : JSValue → Option (List String)
  | .obj fields => some (fields.map (fun p => p.1))
  | .arr xs => some ((List.range xs.length).map (fun i => toString i))
  | .str s => some ((List.range s.data.length).map (fun i => toString i))
  | .null => none
  | _ => some []

/-- `asRowArray` (index.ts): an array qualifies when it is empty or its
*first* element has JavaScript type `object`. -/
def asRowArray : Option JSValue → Option (List JSValue)
  | some (.arr xs) =>
    match xs with
    | [] => some []
    | x :: _ => if typeofObject x then some xs else none
  | _ => none

/-- `asStringArray` (index.ts): an array qualifies when every element is a
string. -/
def asStringArray : Option JSValue → Option (List String)
  | some (.arr xs) => xs.mapM (fun v => match v with | .str s => some s | _ => none)
  | _ => none

/-- The `status` values the normalizer produces. -/
inductive Status where
  | success
  | error
deriving Repr, DecidableEq

/-- The canonical `QueryResult` record assembled by `prepareResult`. -/
structure QueryResult where
  query : String
  results : List JSValue
  columns : List String
  rowCount : Int
  status : Status
  error : Option String
  message : Option String
  truncated : Bool
  displayLimit : Int
deriving Repr

/-- `limitRows` (index.ts): slice off the first `displayLimit` rows and
record whether anything was cut.  `displayLimit` is a row count, so
`rows.slice(0, displayLimit)` is `List.take`; the source's `Array.isArray`
guard is discharged by the typed `rows` of this embedding. -/
def limitRows (displayLimit : Option Nat) (rows : List JSValue) : List JSValue × Bool :=
  match displayLimit with
  | some d => (rows.take d, decide (rows.length > (rows.take d).length))
  | none => (rows, false)

/-- `appendTruncationMessage` (index.ts): on truncation, build
`"Showing first <shownCount> of <totalRows> rows."` and join it after the
trimmed existing message; an absent or empty (falsy) message lets the note
stand alone. -/
def truncationNote (shownCount totalRows : Int) : String :=
  "Showing first " ++ toString shownCount ++ " of " ++ toString totalRows ++ " rows."

/-- Body of `appendTruncationMessage`, see `truncationNote` above. -/
def appendTruncationMessage (displayLimit : Option Nat) (message : Option String)
    (truncated : Bool) (totalRows : Int) : Option String :=
  if truncated = false then message
  else
    let shownCount : Int := match displayLimit with | some d => (d : Int) | none => totalRows
    let note := truncationNote shownCount totalRows
    match message with
    | some m => if m = "" then some note else some (jsTrim m ++ " " ++ note)
    | none => some note

/-- The named parameters of `prepareResult` (index.ts). -/
structure PrepareParams where
  queryLabel : String
  rows : Option (List JSValue)
  columns : Option (List String)
  rowCount : Option Int
  status : Status
  message : Option String
  error : Option String
deriving Repr

/-- `x === null`, the only value on which `Object.keys` throws here. -/
def isNull : JSValue → Bool
  | .null => true
  | _ => false

/-- `limitedRows.length > 0 ? Object.keys(limitedRows[0]) : []`, as an
`Except` so the `Object.keys(null)` `TypeError` is explicit. -/
def keysOfFirstRow (rows : List JSValue) : Except String (List String) :=
  match rows with
  | [] => .ok []
  | r :: _ =>
    match objectKeys r with
    | some ks => .ok ks
    | none => .error "TypeError: Cannot convert undefined or null to object"

/-- The column inference of `prepareResult`:
`Array.isArray(params.columns) && params.columns.length > 0` keeps the
supplied columns, anything else derives them from the first capped row. -/
def inferColumns (columns : Option (List String)) (limitedRows : List JSValue) :
    Except String (List String) :=
  match columns with
  | some cs => if cs.length > 0 then .ok cs else keysOfFirstRow limitedRows
  | none => keysOfFirstRow limitedRows

/-- `prepareResult` (index.ts): cap the rows, infer the columns — throwing
(`Except.error`) when `Object.keys` is applied to a `null` first row —
resolve the total row count and the effective display limit, and assemble
the `QueryResult`.  Status `error` skips the truncation note. -/
def prepareResult (displayLimit : Option Nat) (params : PrepareParams) :
    Except String QueryResult :=
  let safeRows := params.rows.getD []
  let lim := limitRows displayLimit safeRows
  let limitedRows := lim.1
  let truncated := lim.2
  match inferColumns params.columns limitedRows with
  | .error e => .error e
  | .ok cols =>
    let totalRows : Int := match params.rowCount with
      | some n => n
      | none => (safeRows.length : Int)
    let effectiveDisplayLimit : Int := match displayLimit with
      | some d => (d : Int)
      | none => totalRows
    .ok {
      query := params.queryLabel
      results := limitedRows
      columns := cols
      rowCount := totalRows
      status := params.status
      error := params.error
      message := match params.status with
        | .success => appendTruncationMessage displayLimit params.message truncated totalRows
        | .error => params.message
      truncated := truncated
      displayLimit := effectiveDisplayLimit }

/-- JavaScript `a || b` over optional strings: only a present, non-empty
string is truthy.  (The label and message fields this models are strings
throughout the repository.) -/
def truthyStr : Option String → Option String
  | some s => if s = "" then none else some s
  | none => none

/-- Reading a string-valued field under `||`-truthiness: `jsGet` then
`truthyStr`. -/
def jsTruthyStr (v : Option JSValue) : Option String :=
  match v with
  | some (.str s) => if s = "" then none else some s
  | _ => none

/-- The prioritized legacy row-array search of the string branch, in source
order: `data`, `rows`, `results`, `platforms`, `distribution`, `columns`;
`[]` when nothing qualifies.  (`||` keeps the first non-`undefined`
result — an empty array is truthy.) -/
def selectRows (parsed : JSValue) : List JSValue :=
  (asRowArray (jsGet parsed "data") <|>
   asRowArray (jsGet parsed "rows") <|>
   asRowArray (jsGet parsed "results") <|>
   asRowArray (jsGet parsed "platforms") <|>
   asRowArray (jsGet parsed "distribution") <|>
   asRowArray (jsGet parsed "columns")).getD []

/-- The first `typeof === 'number'` field among `row_count`, `sample_size`,
`unique_values`, `total_rows`, defaulting to the row-array length. -/
def selectRowCount (parsed : JSValue) (rowData : List JSValue) : Int :=
  match jsGet parsed "row_count" with
  | some (.num n) => n
  | _ =>
    match jsGet parsed "sample_size" with
    | some (.num n) => n
    | _ =>
      match jsGet parsed "unique_values" with
      | some (.num n) => n
      | _ =>
        match jsGet parsed "total_rows" with
        | some (.num n) => n
        | _ => (rowData.length : Int)

/-- `s.replace(pat, '')` with a string pattern: remove the first occurrence
of `pat`, if any. -/
def removeFirstAux (pat : List Char) : List Char → List Char
  | [] => []
  | c :: tl =>
    if pat.isPrefixOf (c :: tl) then (c :: tl).drop pat.length
    else c :: removeFirstAux pat tl

/-- String form of `removeFirstAux`. -/
def removeFirst (s pat : String) : String :=
  String.mk (removeFirstAux pat.data s.data)

/-- The `try` body of the string branch of `formatDatabaseResult`, run on
the value produced by `JSON.parse`.  Throws (`Except.error`) when column
inference reads the keys of a `null` first row. -/
def parsedStringBranch (parsed : JSValue) (query : Option String)
    (displayLimit : Option Nat) : Except String QueryResult :=
  let rowData := selectRows parsed
  let columnList : Except String (List String) :=
    match asStringArray (jsGet parsed "columns") with
    | some cs => .ok cs
    | none => keysOfFirstRow rowData
  match columnList with
  | .error e => .error e
  | .ok cols =>
    prepareResult displayLimit {
      queryLabel := ((truthyStr query) <|> jsTruthyStr (jsGet parsed "query")).getD "N/A"
      rows := some rowData
      columns := some cols
      rowCount := some (selectRowCount parsed rowData)
      status := .success
      message := some ((jsTruthyStr (jsGet parsed "message")).getD
        "Query completed successfully")
      error := none }

/-- The `catch` branch of the string branch: the original string failed to
parse, or the `try` body threw.  An `Error:`-prefixed string (no trailing
space required) maps to an error result whose `error` field is the string
with its first occurrence of `"Error: "` (trailing space included) removed;
any other string becomes a plain success message. -/
def catchBranch (orig : String) (query : Option String) (displayLimit : Option Nat) :
    Except String QueryResult :=
  if jsStartsWith orig "Error:" then
    prepareResult displayLimit {
      queryLabel := (truthyStr query).getD "N/A"
      rows := some []
      columns := some []
      rowCount := some 0
      status := .error
      error := some (removeFirst orig "Error: ")
      message := some orig }
  else
    prepareResult displayLimit {
      queryLabel := (truthyStr query).getD "N/A"
      rows := some []
      columns := some []
      rowCount := some 0
      status := .success
      error := none
      message := some orig }

/-- A structured outcome from `executeQuery`:
`{success, rows?, columns?, row_count?, error?}` together with the optional
`message`/`query` fields that `formatDatabaseResult` probes. -/
structure StructuredOutcome where
  success : Bool
  rows : Option (List JSValue)
  columns : Option (List String)
  row_count : Option Int
  error : Option String
  message : Option String
  query : Option String
deriving Repr

/-- Default message of the structured success branch:
`Query executed successfully. ${row_count || (rows ? rows.length : 0)} rows
returned.` under JavaScript truthiness (a zero or absent `row_count` falls
back to the length of `rows`, or `0` when `rows` is absent). -/
def successMessage (o : StructuredOutcome) : String :=
  let fallback : Int := match o.rows with
    | some xs => (xs.length : Int)
    | none => 0
  let count : Int := match o.row_count with
    | some n => if n = 0 then fallback else n
    | none => fallback
  "Query executed successfully. " ++ toString count ++ " rows returned."

/-- Input accepted by the normalizer: a string together with its
`JSON.parse` outcome (`none` when parsing throws), or a structured
outcome. -/
inductive RawOutcome where
  | jsonStr (orig : String) (parsed : Option JSValue)
  | structured (o : StructuredOutcome)
deriving Repr

/-- `formatDatabaseResult` (index.ts).  The string branch wraps its body in
`try`/`catch`: a parse failure, a property read on a parsed `null`, and a
`TypeError` thrown by column inference all fall back to the `catch` branch.
The structured branch has no handler, so a `TypeError` raised there
propagates as `Except.error`. -/
def formatDatabaseResult (dbResult : RawOutcome) (query : Option String)
    (displayLimit : Option Nat) : Except String QueryResult :=
  match dbResult with
  | .jsonStr orig parsed =>
    match parsed with
    | some v =>
      if isNull v then catchBranch orig query displayLimit
      else
        match parsedStringBranch v query displayLimit with
        | .ok r => .ok r
        | .error _ => catchBranch orig query displayLimit
    | none => catchBranch orig query displayLimit
  | .structured o =>
    if o.success then
      prepareResult displayLimit {
        queryLabel := ((truthyStr query) <|> truthyStr o.query).getD "N/A"
        rows := some (o.rows.getD [])
        columns := some (o.columns.getD [])
        rowCount := o.row_count
        status := .success
        message := some ((truthyStr o.message).getD (successMessage o))
        error := none }
    else
      prepareResult displayLimit {
        queryLabel := ((truthyStr query) <|> truthyStr o.query).getD "N/A"
        rows := some []
        columns := some []
        rowCount := some 0
        status := .error
        error := o.error
        message := some ("Query failed: " ++ (o.error.getD "undefined")) }

/-! ### Structural lemmas shared by the normalizer theorems -/

/-- `Object.keys` only throws on `null`. -/
theorem objectKeys_of_not_null (v : JSValue) (h : isNull v = false) :
    ∃ ks, objectKeys v = some ks := by
  cases v with
  | null => simp [isNull] at h
  | bool b => exact ⟨[], rfl⟩
  | num n => exact ⟨[], rfl⟩
  | str s => exact ⟨_, rfl⟩
  | arr xs => exact ⟨_, rfl⟩
  | obj fs => exact ⟨_, rfl⟩

/-- Characterization of every field of a successfully prepared result in
terms of the parameters of `prepareResult`. -/
theorem prepareResult_ok_spec (d : Option Nat) (p : PrepareParams) (r : QueryResult)
    (h : prepareResult d p = .ok r) :
    r.query = p.queryLabel ∧
    r.results = (limitRows d (p.rows.getD [])).1 ∧
    r.truncated = (limitRows d (p.rows.getD [])).2 ∧
    r.rowCount = (match p.rowCount with
      | some n => n
      | none => ((p.rows.getD []).length : Int)) ∧
    r.status = p.status ∧
    r.error = p.error ∧
    (∀ n, d = some n → r.displayLimit = (n : Int)) ∧
    (d = none → r.displayLimit = r.rowCount) ∧
    r.message = (match p.status with
      | .success => appendTruncationMessage d p.message (limitRows d (p.rows.getD [])).2
          (match p.rowCount with
            | some n => n
            | none => ((p.rows.getD []).length : Int))
      | .error => p.message) ∧
    inferColumns p.columns (limitRows d (p.rows.getD [])).1 = .ok r.columns := by
  simp only [prepareResult] at h
  split at h
  · exact Except.noConfusion h
  · next cols heq =>
      injection h with h'
      subst h'
      refine ⟨rfl, rfl, rfl, rfl, rfl, rfl, ?_, ?_, rfl, heq⟩
      · intro n hn
        subst hn
        rfl
      · intro hn
        subst hn
        rfl

/-- `prepareResult` on empty rows, empty columns and a zero row count
(the shape used by the `catch` branch and the structured failure branch)
never throws and returns the evident record. -/
theorem prepareResult_empty (d : Option Nat) (L : String) (st : Status)
    (m e : Option String) :
    prepareResult d
      { queryLabel := L
        rows := some []
        columns := some []
        rowCount := some 0
        status := st
        message := m
        error := e } =
      .ok { query := L
            results := []
            columns := []
            rowCount := 0
            status := st
            error := e
            message := m
            truncated := false
            displayLimit := (match d with | some n => (n : Int) | none => 0) } := by
  cases d <;> cases st <;>
    simp [prepareResult, limitRows, inferColumns, keysOfFirstRow,
      appendTruncationMessage]

/-- Every successful result of the `catch` branch comes from
`prepareResult`. -/
theorem catchBranch_ok_params (orig : String) (q : Option String) (d : Option Nat)
    (r : QueryResult) (h : catchBranch orig q d = .ok r) :
    ∃ p, prepareResult d p = .ok r := by
  simp only [catchBranch] at h
  split at h
  · exact ⟨_, h⟩
  · exact ⟨_, h⟩

/-- Every successful result of the parsed-string branch comes from
`prepareResult`. -/
theorem parsedStringBranch_ok_params (v : JSValue) (q : Option String) (d : Option Nat)
    (r : QueryResult) (h : parsedStringBranch v q d = .ok r) :
    ∃ p, prepareResult d p = .ok r ∧ p.status = Status.success ∧ p.error = none := by
  simp only [parsedStringBranch] at h
  split at h
  · exact Except.noConfusion h
  · exact ⟨_, h, rfl, rfl⟩

/-- Every successful result of the normalizer comes from `prepareResult`
with the same display cap. -/
theorem formatDatabaseResult_ok_params (raw : RawOutcome) (q : Option String)
    (d : Option Nat) (r : QueryResult) (h : formatDatabaseResult raw q d = .ok r) :
    ∃ p, prepareResult d p = .ok r := by
  cases raw with
  | jsonStr orig parsed =>
    cases parsed with
    | none => exact catchBranch_ok_params _ _ _ _ h
    | some v =>
      simp only [formatDatabaseResult] at h
      split at h
      · exact catchBranch_ok_params _ _ _ _ h
      · split at h
        · next r' heq =>
            injection h with h'
            subst h'
            obtain ⟨p, hp, -, -⟩ := parsedStringBranch_ok_params _ _ _ _ heq
            exact ⟨p, hp⟩
        · exact catchBranch_ok_params _ _ _ _ h
  | structured o =>
    simp only [formatDatabaseResult] at h
    split at h
    · exact ⟨_, h⟩
    · exact ⟨_, h⟩

/-! ### Claims C3 and C4: the string branch -/

/-- Claim C3 counterexample: the input string
`'{"data":[{"a":1},2],"rows":[{"b":2}]}'` parses to an object whose `data`
array has a non-object second element (the number `2`), so the claim's
"array whose elements are objects" test rejects `data` and selects `rows`,
i.e. `[{b:2}]`; the code inspects only the first element, accepts `data`,
and returns `[{a:1}, 2]` as the results. -/
theorem formatDatabaseResult_row_priority_counterexample :
    formatDatabaseResult
      (.jsonStr "\x7b\"data\":[\x7b\"a\":1\x7d,2],\"rows\":[\x7b\"b\":2\x7d]\x7d"
        (some (.obj [("data", .arr [.obj [("a", .num 1)], .num 2]),
                     ("rows", .arr [.obj [("b", .num 2)]])])))
      none none =
      .ok { query := "N/A"
            results := [.obj [("a", .num 1)], .num 2]
            columns := ["a"]
            rowCount := 2
            status := .success
            error := none
            message := some "Query completed successfully"
            truncated := false
            displayLimit := 2 } ∧
    [JSValue.obj [("a", JSValue.num 1)], JSValue.num 2] ≠
      [JSValue.obj [("b", JSValue.num 2)]] := by
  refine ⟨rfl, fun hcontra => absurd (congrArg List.length hcontra) (by decide)⟩

/-- Claim C3 (amended): on a string parsing to a non-null value, when the
branch completes without the column-inference `TypeError`, the result rows
are chosen by searching the fields `data`, `rows`, `results`, `platforms`,
`distribution`, `columns` in that order and taking the first whose value is
an array that is empty or whose *first* element has JavaScript type
`object` (an object, array, or `null`), defaulting to the empty array; the
earliest matching field wins. -/
theorem formatDatabaseResult_row_priority (v : JSValue) (orig : String)
    (q : Option String) (r : QueryResult) (hv : isNull v = false)
    (h : parsedStringBranch v q none = .ok r) :
    formatDatabaseResult (.jsonStr orig (some v)) q none = .ok r ∧
    r.results = selectRows v ∧
    (∀ xs, asRowArray (jsGet v "data") = some xs → r.results = xs) ∧
    (asRowArray (jsGet v "data") = none →
      ∀ xs, asRowArray (jsGet v "rows") = some xs → r.results = xs) ∧
    (asRowArray (jsGet v "data") = none → asRowArray (jsGet v "rows") = none →
      ∀ xs, asRowArray (jsGet v "results") = some xs → r.results = xs) ∧
    (asRowArray (jsGet v "data") = none → asRowArray (jsGet v "rows") = none →
      asRowArray (jsGet v "results") = none →
      ∀ xs, asRowArray (jsGet v "platforms") = some xs → r.results = xs) ∧
    (asRowArray (jsGet v "data") = none → asRowArray (jsGet v "rows") = none →
      asRowArray (jsGet v "results") = none → asRowArray (jsGet v "platforms") = none →
      ∀ xs, asRowArray (jsGet v "distribution") = some xs → r.results = xs) ∧
    (asRowArray (jsGet v "data") = none → asRowArray (jsGet v "rows") = none →
      asRowArray (jsGet v "results") = none → asRowArray (jsGet v "platforms") = none →
      asRowArray (jsGet v "distribution") = none →
      ∀ xs, asRowArray (jsGet v "columns") = some xs → r.results = xs) ∧
    (asRowArray (jsGet v "data") = none → asRowArray (jsGet v "rows") = none →
      asRowArray (jsGet v "results") = none → asRowArray (jsGet v "platforms") = none →
      asRowArray (jsGet v "distribution") = none → asRowArray (jsGet v "columns") = none →
      r.results = []) := by
  have hok : formatDatabaseResult (.jsonStr orig (some v)) q none = .ok r := by
    simp only [formatDatabaseResult, hv, Bool.false_eq_true, if_false, h]
  have hres : r.results = selectRows v := by
    simp only [parsedStringBranch] at h
    split at h
    · exact Except.noConfusion h
    · obtain ⟨-, hres, -⟩ := prepareResult_ok_spec _ _ _ h
      simpa [limitRows] using hres
  refine ⟨hok, hres, ?_, ?_, ?_, ?_, ?_, ?_, ?_⟩
  · intro xs hxs
    rw [hres]
    simp [selectRows, hxs]
  · intro h1 xs hxs
    rw [hres]
    simp [selectRows, h1, hxs]
  · intro h1 h2 xs hxs
    rw [hres]
    simp [selectRows, h1, h2, hxs]
  · intro h1 h2 h3 xs hxs
    rw [hres]
    simp [selectRows, h1, h2, h3, hxs]
  · intro h1 h2 h3 h4 xs hxs
    rw [hres]
    simp [selectRows, h1, h2, h3, h4, hxs]
  · intro h1 h2 h3 h4 h5 xs hxs
    rw [hres]
    simp [selectRows, h1, h2, h3, h4, h5, hxs]
  · intro h1 h2 h3 h4 h5 h6
    rw [hres]
    simp [selectRows, h1, h2, h3, h4, h5, h6]

/-- Witness for the amended claim C3: a string carrying only a `rows`
field resolves to that field's rows. -/
theorem formatDatabaseResult_row_priority_witness :
    formatDatabaseResult
      (.jsonStr "\x7b\"rows\":[\x7b\"b\":2\x7d]\x7d"
        (some (.obj [("rows", .arr [.obj [("b", .num 2)]])]))) none none =
      .ok { query := "N/A"
            results := [.obj [("b", .num 2)]]
            columns := ["b"]
            rowCount := 1
            status := .success
            error := none
            message := some "Query completed successfully"
            truncated := false
            displayLimit := 1 } ∧
    [JSValue.obj [("b", JSValue.num 2)]] =
      selectRows (.obj [("rows", .arr [.obj [("b", .num 2)]])]) :=
  ⟨(formatDatabaseResult_row_priority
      (.obj [("rows", .arr [.obj [("b", .num 2)]])])
      "\x7b\"rows\":[\x7b\"b\":2\x7d]\x7d" none
      { query := "N/A"
        results := [.obj [("b", .num 2)]]
        columns := ["b"]
        rowCount := 1
        status := .success
        error := none
        message := some "Query completed successfully"
        truncated := false
        displayLimit := 1 } rfl rfl).1,
   (formatDatabaseResult_row_priority
      (.obj [("rows", .arr [.obj [("b", .num 2)]])])
      "\x7b\"rows\":[\x7b\"b\":2\x7d]\x7d" none
      { query := "N/A"
        results := [.obj [("b", .num 2)]]
        columns := ["b"]
        rowCount := 1
        status := .success
        error := none
        message := some "Query completed successfully"
        truncated := false
        displayLimit := 1 } rfl rfl).2.1⟩

/-- Claim C4 counterexample: `"Error:x"` fails JSON parsing and does not
start with the claim's prefix `"Error: "` (with trailing space), so the
claim demands a success result carrying the whole string as message; the
code tests the space-less prefix `"Error:"` and produces an error result
(whose `error` keeps the `Error:` prefix, since stripping looks for
`"Error: "` with the space). -/
theorem formatDatabaseResult_error_prefix_counterexample :
    jsStartsWith "Error:x" "Error: " = false ∧
    formatDatabaseResult (.jsonStr "Error:x" none) none none =
      .ok { query := "N/A"
            results := []
            columns := []
            rowCount := 0
            status := .error
            error := some "Error:x"
            message := some "Error:x"
            truncated := false
            displayLimit := 0 } := by
  exact ⟨rfl, rfl⟩

/-- Claim C4 (amended): a string that fails JSON parsing and starts with
`"Error:"` (no trailing space required) yields a status-error result whose
`error` is the string with its first occurrence of `"Error: "` (with the
space) removed and whose `message` is the original string, with empty
results and columns and a zero row count; any other unparsable string
yields the message-only success result. -/
theorem formatDatabaseResult_unparsed_string (s : String) (q : Option String)
    (d : Option Nat) :
    (jsStartsWith s "Error:" = true →
      formatDatabaseResult (.jsonStr s none) q d =
        .ok { query := (truthyStr q).getD "N/A"
              results := []
              columns := []
              rowCount := 0
              status := .error
              error := some (removeFirst s "Error: ")
              message := some s
              truncated := false
              displayLimit := (match d with | some n => (n : Int) | none => 0) }) ∧
    (jsStartsWith s "Error:" = false →
      formatDatabaseResult (.jsonStr s none) q d =
        .ok { query := (truthyStr q).getD "N/A"
              results := []
              columns := []
              rowCount := 0
              status := .success
              error := none
              message := some s
              truncated := false
              displayLimit := (match d with | some n => (n : Int) | none => 0) }) := by
  constructor <;> intro h
  · have hstep : formatDatabaseResult (.jsonStr s none) q d = catchBranch s q d := rfl
    rw [hstep]
    simp only [catchBranch, h, if_true]
    exact prepareResult_empty d ((truthyStr q).getD "N/A") .error (some s)
      (some (removeFirst s "Error: "))
  · have hstep : formatDatabaseResult (.jsonStr s none) q d = catchBranch s q d := rfl
    rw [hstep]
    simp only [catchBranch, h, Bool.false_eq_true, if_false]
    exact prepareResult_empty d ((truthyStr q).getD "N/A") .success (some s) none

/-- Witness for the amended claim C4 at the spec's concrete instances. -/
theorem formatDatabaseResult_unparsed_string_witness :
    formatDatabaseResult (.jsonStr "Error: connection refused" none) none none =
      .ok { query := "N/A"
            results := []
            columns := []
            rowCount := 0
            status := .error
            error := some "connection refused"
            message := some "Error: connection refused"
            truncated := false
            displayLimit := 0 } ∧
    formatDatabaseResult (.jsonStr "hello" none) none none =
      .ok { query := "N/A"
            results := []
            columns := []
            rowCount := 0
            status := .success
            error := none
            message := some "hello"
            truncated := false
            displayLimit := 0 } :=
  ⟨(formatDatabaseResult_unparsed_string "Error: connection refused" none none).1 rfl,
   (formatDatabaseResult_unparsed_string "hello" none none).2 rfl⟩

/-! ### Claims C5, C6, C7: truncation and the result invariants -/

/-- Claim C5: truncation behaviour of `prepareResult`, the single assembly
step every normalizer branch passes through.  A numeric display limit caps
the results at the first `displayLimit` rows of the resolved row array and
sets `truncated` exactly when the original row array was longer; an absent
display limit leaves the rows unsliced, `truncated` false, and reports the
total row count in the output `displayLimit` field; and a truncated success
result carries the note "Showing first <displayLimit> of <rowCount> rows.",
space-joined after the (trimmed) existing message, standing alone when the
message is absent or empty. -/
theorem prepareResult_display_cap (d : Option Nat) (p : PrepareParams)
    (r : QueryResult) (h : prepareResult d p = .ok r) :
    (∀ n, d = some n → r.results = (p.rows.getD []).take n ∧
      r.truncated = decide ((p.rows.getD []).length > r.results.length)) ∧
    (d = none → r.results = p.rows.getD [] ∧ r.truncated = false ∧
      r.displayLimit = r.rowCount) ∧
    (∀ n, d = some n → r.truncated = true → r.status = Status.success →
      r.message = some (match p.message with
        | none => truncationNote (n : Int) r.rowCount
        | some m =>
          if m = "" then truncationNote (n : Int) r.rowCount
          else jsTrim m ++ " " ++ truncationNote (n : Int) r.rowCount)) := by
  obtain ⟨hq, hres, htr, hrc, hst, herr, hdls, hdln, hmsg, hcols⟩ :=
    prepareResult_ok_spec d p r h
  refine ⟨?_, ?_, ?_⟩
  · intro n hn
    subst hn
    refine ⟨by simpa [limitRows] using hres, ?_⟩
    rw [htr, hres]
    simp [limitRows]
  · intro hn
    subst hn
    exact ⟨by simpa [limitRows] using hres, by simpa [limitRows] using htr, hdln rfl⟩
  · intro n hn htrue hsucc
    subst hn
    have hps : p.status = Status.success := hst.symm.trans hsucc
    rw [hps] at hmsg
    have hlim : (limitRows (some n) (p.rows.getD [])).2 = true := htr.symm.trans htrue
    rw [hlim, ← hrc] at hmsg
    rw [hmsg]
    cases hm : p.message with
    | none => simp [appendTruncationMessage]
    | some m =>
      by_cases hme : m = ""
      · simp [appendTruncationMessage, hme]
      · simp [appendTruncationMessage, hme]

/-- Witness for claim C5 at the spec's concrete instance: two rows with a
display limit of 1 keep one row, set `truncated`, and annotate the message
with "first 1 of 2". -/
theorem prepareResult_display_cap_witness :
    [JSValue.obj [("a", JSValue.num 1)]] =
      ([JSValue.obj [("a", JSValue.num 1)], JSValue.obj [("a", JSValue.num 2)]].take 1) ∧
    containsStr "Query executed successfully. 2 rows returned. Showing first 1 of 2 rows."
      "first 1 of 2" = true := by
  constructor
  · exact ((prepareResult_display_cap (some 1)
      { queryLabel := "N/A"
        rows := some [JSValue.obj [("a", JSValue.num 1)], JSValue.obj [("a", JSValue.num 2)]]
        columns := some ["a"]
        rowCount := some 2
        status := Status.success
        message := some "Query executed successfully. 2 rows returned."
        error := none }
      { query := "N/A"
        results := [JSValue.obj [("a", JSValue.num 1)]]
        columns := ["a"]
        rowCount := 2
        status := Status.success
        error := none
        message := some
          "Query executed successfully. 2 rows returned. Showing first 1 of 2 rows."
        truncated := true
        displayLimit := 1 } rfl).1 1 rfl).1
  · decide

/-- `catchBranch` results satisfy the error/status relationship. -/
theorem catchBranch_status_error (orig : String) (q : Option String) (d : Option Nat)
    (r : QueryResult) (h : catchBranch orig q d = .ok r) :
    (r.status = Status.success → r.error = none) ∧
    (r.error ≠ none → r.status = Status.error) := by
  simp only [catchBranch] at h
  split at h
  · obtain ⟨-, -, -, -, hst, -, -, -, -, -⟩ := prepareResult_ok_spec _ _ _ h
    exact ⟨fun hs => absurd (hst.symm.trans hs) (by simp),
      fun _ => hst⟩
  · obtain ⟨-, -, -, -, hst, herr, -, -, -, -⟩ := prepareResult_ok_spec _ _ _ h
    exact ⟨fun _ => herr, fun hne => absurd herr hne⟩

/-- `parsedStringBranch` results are always successful and error-free. -/
theorem parsedStringBranch_status (v : JSValue) (q : Option String) (d : Option Nat)
    (r : QueryResult) (h : parsedStringBranch v q d = .ok r) :
    r.status = Status.success ∧ r.error = none := by
  simp only [parsedStringBranch] at h
  split at h
  · exact Except.noConfusion h
  · obtain ⟨-, -, -, -, hst, herr, -, -, -, -⟩ := prepareResult_ok_spec _ _ _ h
    exact ⟨hst, herr⟩

/-- Claim C6 counterexample: the failing structured outcome
`{success:false}` with no `error` field yields `status = error` with an
absent `error`, so `error` is not present although the status is `error`. -/
theorem formatDatabaseResult_error_iff_counterexample :
    formatDatabaseResult
      (.structured { success := false
                     rows := none
                     columns := none
                     row_count := none
                     error := none
                     message := none
                     query := none }) none none =
      .ok { query := "N/A"
            results := []
            columns := []
            rowCount := 0
            status := .error
            error := none
            message := some "Query failed: undefined"
            truncated := false
            displayLimit := 0 } := by
  exact rfl

/-- Claim C6 (amended): the `error` field is never present alongside
`status = success`, and a present `error` forces `status = error`; for a
failing structured outcome the `error` field is exactly the outcome's own
`error` field — present precisely when the outcome supplied one. -/
theorem formatDatabaseResult_error_iff (raw : RawOutcome) (q : Option String)
    (d : Option Nat) (r : QueryResult) (h : formatDatabaseResult raw q d = .ok r) :
    (r.status = Status.success → r.error = none) ∧
    (r.error ≠ none → r.status = Status.error) ∧
    (∀ o, raw = .structured o → o.success = false → r.error = o.error) := by
  cases raw with
  | jsonStr orig parsed =>
    have hstr : (r.status = Status.success → r.error = none) ∧
        (r.error ≠ none → r.status = Status.error) := by
      cases parsed with
      | none => exact catchBranch_status_error _ _ _ _ h
      | some v =>
        simp only [formatDatabaseResult] at h
        split at h
        · exact catchBranch_status_error _ _ _ _ h
        · split at h
          · next r' heq =>
              injection h with h'
              subst h'
              obtain ⟨-, he⟩ := parsedStringBranch_status _ _ _ _ heq
              exact ⟨fun _ => he, fun hne => absurd he hne⟩
          · exact catchBranch_status_error _ _ _ _ h
    exact ⟨hstr.1, hstr.2, fun o ho => RawOutcome.noConfusion ho⟩
  | structured o =>
    simp only [formatDatabaseResult] at h
    split at h
    · next hsucc =>
        obtain ⟨-, -, -, -, hst, herr, -, -, -, -⟩ := prepareResult_ok_spec _ _ _ h
        refine ⟨fun _ => herr, fun hne => absurd herr hne, ?_⟩
        intro o' ho hfalse
        injection ho with ho'
        subst ho'
        rw [hfalse] at hsucc
        exact Bool.noConfusion hsucc
    · obtain ⟨-, -, -, -, hst, herr, -, -, -, -⟩ := prepareResult_ok_spec _ _ _ h
      refine ⟨fun hs => absurd (hst.symm.trans hs) (by simp), fun _ => hst, ?_⟩
      intro o' ho _
      injection ho with ho'
      subst ho'
      exact herr

/-- Witness for the amended claim C6 at the spec's error-mapping instance:
a failing structured outcome carries its error verbatim. -/
theorem formatDatabaseResult_error_iff_witness :
    formatDatabaseResult
      (.structured { success := false
                     rows := none
                     columns := none
                     row_count := none
                     error := some "relation \"x\" does not exist"
                     message := none
                     query := none }) none none =
      .ok { query := "N/A"
            results := []
            columns := []
            rowCount := 0
            status := .error
            error := some "relation \"x\" does not exist"
            message := some "Query failed: relation \"x\" does not exist"
            truncated := false
            displayLimit := 0 } ∧
    Status.error = Status.error := by
  refine ⟨rfl, ?_⟩
  exact (formatDatabaseResult_error_iff
    (.structured { success := false
                   rows := none
                   columns := none
                   row_count := none
                   error := some "relation \"x\" does not exist"
                   message := none
                   query := none }) none none
    { query := "N/A"
      results := []
      columns := []
      rowCount := 0
      status := .error
      error := some "relation \"x\" does not exist"
      message := some "Query failed: relation \"x\" does not exist"
      truncated := false
      displayLimit := 0 } rfl).2.1 (by simp)

/-- Claim C7 counterexample: a structured success reporting `row_count = 1`
while supplying two rows, displayed with cap 1, yields `truncated = true`
with `displayLimit = 1` and `rowCount = 1`, violating
`displayLimit < rowCount`. -/
theorem formatDatabaseResult_truncated_counterexample :
    formatDatabaseResult
      (.structured { success := true
                     rows := some [.obj [("a", .num 1)], .obj [("a", .num 2)]]
                     columns := some ["a"]
                     row_count := some 1
                     error := none
                     message := none
                     query := none }) none (some 1) =
      .ok { query := "N/A"
            results := [.obj [("a", .num 1)]]
            columns := ["a"]
            rowCount := 1
            status := .success
            error := none
            message := some
              "Query executed successfully. 1 rows returned. Showing first 1 of 1 rows."
            truncated := true
            displayLimit := 1 } ∧
    ¬((1 : Int) < (1 : Int)) := by
  exact ⟨rfl, by decide⟩

/-- Claim C7 (amended): a truncated result always has a numeric display cap
strictly below the number of rows actually supplied, so
`displayLimit < rowCount` holds whenever the reported `row_count` is absent
(then `rowCount` is the supplied length) or at least the supplied length;
an outcome whose reported `row_count` under-counts its own rows can violate
the original inequality. -/
theorem prepareResult_truncated_displayLimit (d : Option Nat) (p : PrepareParams)
    (r : QueryResult) (h : prepareResult d p = .ok r) (ht : r.truncated = true) :
    (∃ n, d = some n ∧ (n : Int) < ((p.rows.getD []).length : Int)) ∧
    (p.rowCount = none → r.displayLimit < r.rowCount) ∧
    (∀ m, p.rowCount = some m → ((p.rows.getD []).length : Int) ≤ m →
      r.displayLimit < r.rowCount) := by
  obtain ⟨hq, hres, htr, hrc, hst, herr, hdls, hdln, hmsg, hcols⟩ :=
    prepareResult_ok_spec d p r h
  cases d with
  | none =>
    rw [htr] at ht
    simp [limitRows] at ht
  | some n =>
    rw [htr] at ht
    simp only [limitRows, decide_eq_true_eq, List.length_take] at ht
    have hn : n < (p.rows.getD []).length := by omega
    refine ⟨⟨n, rfl, by exact_mod_cast hn⟩, ?_, ?_⟩
    · intro hnone
      rw [hdls n rfl, hrc, hnone]
      show (n : Int) < ((p.rows.getD []).length : Int)
      exact_mod_cast hn
    · intro m hm hlen
      rw [hdls n rfl, hrc, hm]
      show (n : Int) < m
      have hcast : ((n : Int)) < ((p.rows.getD []).length : Int) := by exact_mod_cast hn
      omega

/-- Witness for the amended claim C7: two rows, cap 1, no reported
`row_count` — the display limit 1 is strictly below the row count 2. -/
theorem prepareResult_truncated_displayLimit_witness :
    (1 : Int) < 2 := by
  have h := (prepareResult_truncated_displayLimit (some 1)
    { queryLabel := "N/A"
      rows := some [JSValue.obj [("a", JSValue.num 1)], JSValue.obj [("a", JSValue.num 2)]]
      columns := some ["a"]
      rowCount := none
      status := Status.success
      message := none
      error := none }
    { query := "N/A"
      results := [JSValue.obj [("a", JSValue.num 1)]]
      columns := ["a"]
      rowCount := 2
      status := Status.success
      error := none
      message := some "Showing first 1 of 2 rows."
      truncated := true
      displayLimit := 1 } rfl rfl).2.1 rfl
  exact h

/-! ### Claims C8 and C9: totality and idempotence -/

/-- Column inference succeeds whenever no row is `null`. -/
theorem keysOfFirstRow_ok (rows : List JSValue)
    (hrows : ∀ x ∈ rows, isNull x = false) :
    ∃ ks, keysOfFirstRow rows = .ok ks := by
  cases rows with
  | nil => exact ⟨[], rfl⟩
  | cons r tl =>
    obtain ⟨ks, hks⟩ := objectKeys_of_not_null r (hrows r (List.mem_cons_self r tl))
    exact ⟨ks, by simp [keysOfFirstRow, hks]⟩

/-- `prepareResult` returns a value whenever none of its rows is `null`. -/
theorem prepareResult_ok_total (d : Option Nat) (p : PrepareParams)
    (hp : ∀ x ∈ p.rows.getD [], isNull x = false) :
    ∃ r, prepareResult d p = .ok r := by
  have hlim : ∀ x ∈ (limitRows d (p.rows.getD [])).1, isNull x = false := by
    intro x hx
    apply hp
    cases d with
    | none => simpa [limitRows] using hx
    | some n => exact List.take_subset n _ (by simpa [limitRows] using hx)
  obtain ⟨ks, hks⟩ := keysOfFirstRow_ok _ hlim
  have hic : ∃ cs, inferColumns p.columns (limitRows d (p.rows.getD [])).1 = .ok cs := by
    unfold inferColumns
    cases p.columns with
    | none => exact ⟨ks, hks⟩
    | some cs =>
      by_cases hlen : cs.length > 0
      · exact ⟨cs, by simp [hlen]⟩
      · exact ⟨ks, by simp [hlen, hks]⟩
  obtain ⟨cs, hcs⟩ := hic
  cases hres : prepareResult d p with
  | ok r => exact ⟨r, rfl⟩
  | error e =>
    simp only [prepareResult, hcs] at hres
    exact Except.noConfusion hres

/-- The `catch` branch always returns a value. -/
theorem catchBranch_total (orig : String) (q : Option String) (d : Option Nat) :
    ∃ r, catchBranch orig q d = .ok r := by
  simp only [catchBranch]
  split
  · exact ⟨_, prepareResult_empty ..⟩
  · exact ⟨_, prepareResult_empty ..⟩

/-- Claim C8 counterexample: a structured outcome whose `rows` holds a
single `null` (and no usable `columns`) makes the structured branch apply
`Object.keys` to `null`; with no `try`/`catch` around that branch the
`TypeError` propagates, so the normalizer does not return a value. -/
theorem formatDatabaseResult_throws_counterexample :
    formatDatabaseResult
      (.structured { success := true
                     rows := some [JSValue.null]
                     columns := none
                     row_count := none
                     error := none
                     message := none
                     query := none }) none none =
      .error "TypeError: Cannot convert undefined or null to object" := by
  exact rfl

/-- Claim C8 (amended): the normalizer never throws on a string input —
malformed or unrecognized strings degrade to the message-only success
result — and never throws on a structured outcome whose rows are row
objects (more precisely: contain no `null`); a structured outcome with a
`null` row and no usable columns is the one shape on which it throws. -/
theorem formatDatabaseResult_total (s : String) (parsed : Option JSValue)
    (q : Option String) (d : Option Nat) (o : StructuredOutcome)
    (hrows : (o.rows.getD []).all (fun x => !isNull x) = true) :
    (∃ r, formatDatabaseResult (.jsonStr s parsed) q d = .ok r) ∧
    (∃ r, formatDatabaseResult (.structured o) q d = .ok r) ∧
    (parsed = none → jsStartsWith s "Error:" = false →
      formatDatabaseResult (.jsonStr s parsed) q d =
        .ok { query := (truthyStr q).getD "N/A"
              results := []
              columns := []
              rowCount := 0
              status := .success
              error := none
              message := some s
              truncated := false
              displayLimit := (match d with | some n => (n : Int) | none => 0) }) := by
  refine ⟨?_, ?_, ?_⟩
  · cases parsed with
    | none => exact catchBranch_total s q d
    | some v =>
      cases hnv : isNull v with
      | true =>
        obtain ⟨r, hr⟩ := catchBranch_total s q d
        exact ⟨r, by simp only [formatDatabaseResult, hnv, if_true, hr]⟩
      | false =>
        cases hb : parsedStringBranch v q d with
        | ok r =>
          exact ⟨r, by simp only [formatDatabaseResult, hnv, Bool.false_eq_true, if_false, hb]⟩
        | error e =>
          obtain ⟨r, hr⟩ := catchBranch_total s q d
          exact ⟨r, by simp only [formatDatabaseResult, hnv, Bool.false_eq_true, if_false, hb, hr]⟩
  · cases hs : o.success with
    | false =>
      cases hres : formatDatabaseResult (.structured o) q d with
      | ok r => exact ⟨r, rfl⟩
      | error e =>
        simp only [formatDatabaseResult, hs, Bool.false_eq_true, if_false] at hres
        rw [prepareResult_empty] at hres
        exact Except.noConfusion hres
    | true =>
      have hp : ∀ x ∈ (some (o.rows.getD [])).getD [], isNull x = false := by
        intro x hx
        have := List.all_eq_true.mp hrows x (by simpa using hx)
        simpa using this
      obtain ⟨r, hr⟩ := prepareResult_ok_total d
        { queryLabel := ((truthyStr q) <|> truthyStr o.query).getD "N/A"
          rows := some (o.rows.getD [])
          columns := some (o.columns.getD [])
          rowCount := o.row_count
          status := .success
          message := some ((truthyStr o.message).getD (successMessage o))
          error := none } hp
      exact ⟨r, by simp only [formatDatabaseResult, hs, if_true, hr]⟩
  · intro hparse herr
    subst hparse
    have hstep : formatDatabaseResult (.jsonStr s none) q d = catchBranch s q d := rfl
    rw [hstep]
    simp only [catchBranch, herr, Bool.false_eq_true, if_false]
    exact prepareResult_empty d ((truthyStr q).getD "N/A") .success (some s) none

/-- Witness for the amended claim C8: a plain unparsable string degrades to
the message-only success result, and a structured outcome with an object
row is normalized without throwing. -/
theorem formatDatabaseResult_total_witness :
    formatDatabaseResult (.jsonStr "done" none) none none =
      .ok { query := "N/A"
            results := []
            columns := []
            rowCount := 0
            status := .success
            error := none
            message := some "done"
            truncated := false
            displayLimit := 0 } :=
  (formatDatabaseResult_total "done" none none none
    { success := true
      rows := some [JSValue.obj [("a", JSValue.num 1)]]
      columns := none
      row_count := none
      error := none
      message := none
      query := none } (by decide)).2.2 rfl rfl

/-- Re-normalizing the fields of a prepared result (no display cap on
either pass) preserves `results`, `columns` and `rowCount`. -/
theorem prepareResult_renormalize (p : PrepareParams) (r : QueryResult)
    (h : prepareResult none p = .ok r) (L : String) (msg : Option String) :
    prepareResult none
      { queryLabel := L
        rows := some r.results
        columns := some r.columns
        rowCount := some r.rowCount
        status := Status.success
        message := msg
        error := none } =
      .ok { query := L
            results := r.results
            columns := r.columns
            rowCount := r.rowCount
            status := Status.success
            error := none
            message := msg
            truncated := false
            displayLimit := r.rowCount } := by
  obtain ⟨-, hres, -, -, -, -, -, -, -, hcols⟩ := prepareResult_ok_spec none p r h
  have hres' : r.results = p.rows.getD [] := by simpa [limitRows] using hres
  have hcols' : inferColumns p.columns r.results = .ok r.columns := by
    rw [hres']
    simpa [limitRows] using hcols
  have hsecond : inferColumns (some r.columns) r.results = .ok r.columns := by
    by_cases hlen : r.columns.length > 0
    · simp [inferColumns, hlen]
    · have hempty : r.columns = [] := List.length_eq_zero.mp (by omega)
      have hfall : keysOfFirstRow r.results = .ok r.columns := by
        cases hpc : p.columns with
        | none =>
          rw [hpc] at hcols'
          simpa only [inferColumns] using hcols'
        | some cs =>
          rw [hpc] at hcols'
          simp only [inferColumns] at hcols'
          by_cases hcl : cs.length > 0
          · rw [if_pos hcl] at hcols'
            injection hcols' with hh
            rw [hh, hempty] at hcl
            simp at hcl
          · rw [if_neg hcl] at hcols'
            exact hcols'
      simp [inferColumns, hlen, hfall]
  simp only [prepareResult, limitRows, Option.getD_some, hsecond]
  rfl

/-- Claim C9: normalizing any outcome with no display cap and re-wrapping
the result's `results`/`columns`/`rowCount` as a structured success
outcome re-normalizes (again with no cap) to a result with the same
`results`, `columns` and `rowCount` (the message is the regenerated default
and may differ). -/
theorem formatDatabaseResult_idempotent (raw : RawOutcome) (q : Option String)
    (r : QueryResult) (h : formatDatabaseResult raw q none = .ok r) :
    formatDatabaseResult
      (.structured { success := true
                     rows := some r.results
                     columns := some r.columns
                     row_count := some r.rowCount
                     error := none
                     message := none
                     query := none }) none none =
      .ok { query := "N/A"
            results := r.results
            columns := r.columns
            rowCount := r.rowCount
            status := Status.success
            error := none
            message := some (successMessage
              { success := true
                rows := some r.results
                columns := some r.columns
                row_count := some r.rowCount
                error := none
                message := none
                query := none })
            truncated := false
            displayLimit := r.rowCount } := by
  obtain ⟨p, hp⟩ := formatDatabaseResult_ok_params raw q none r h
  exact prepareResult_renormalize p r hp "N/A" (some (successMessage
    { success := true
      rows := some r.results
      columns := some r.columns
      row_count := some r.rowCount
      error := none
      message := none
      query := none }))

/-- Witness for claim C9: re-normalizing the normalization of the plain
string `"hello"` (the message-only result) preserves the empty rows and
columns and the zero row count. -/
theorem formatDatabaseResult_idempotent_witness :
    formatDatabaseResult
      (.structured { success := true
                     rows := some []
                     columns := some []
                     row_count := some 0
                     error := none
                     message := none
                     query := none }) none none =
      .ok { query := "N/A"
            results := []
            columns := []
            rowCount := 0
            status := Status.success
            error := none
            message := some "Query executed successfully. 0 rows returned."
            truncated := false
            displayLimit := 0 } :=
  formatDatabaseResult_idempotent (.jsonStr "hello" none) none
    { query := "N/A"
      results := []
      columns := []
      rowCount := 0
      status := Status.success
      error := none
      message := some "hello"
      truncated := false
      displayLimit := 0 } rfl

end VdataApp
